import Mathlib

/-!
Shallow embedding of `src/m_hass_api/hass_state_monitor.py` (class
`HassStateMonitor` and dataclass `StateChangeEvent`).

Modelling conventions:
* Python `None` / optional values are `Option`.
* Python exceptions are modelled with `Except PyExn`; a `try/except (E1, E2)`
  block is a `match` that turns the listed exception kinds back into a normal
  result and re-raises the others.
* Raw entity state values arriving on the websocket are JSON strings (or
  absent), so the raw-value domain is `Option String`.
* Machine floats are modelled by `PyFloat` (exact rationals plus the special
  values infinity and NaN).  Decimal literals are kept exact; IEEE rounding is
  not modelled (no claim depends on it), but the overflow of literals of
  magnitude at least 2^1024 to infinity is, since `int()` treats infinities
  specially.
* Runtime handles of the Python class (logger, websocket object, thread
  object, lock) have no influence on the data behaviour modelled here and are
  omitted from the state record; the lock is modelled by the fact that each
  handler is a single atomic function on the state.
-/

/-- The Python exception kinds relevant to `hass_state_monitor.py`:
`_convert_value` catches `(ValueError, TypeError, AttributeError)`;
`OverflowError` is raised by `int()` on an infinite float and is NOT in that
tuple; `KeyError` is raised by `self.entities[entity_id]` on a missing key. -/
inductive PyExn where
  | valueError
  | typeError
  | attributeError
  | overflowError
  | keyError
deriving DecidableEq, Repr

/-- Model of a Python `float`: an exact rational for finite values, plus the
special values infinity (signed) and NaN. -/
inductive PyFloat where
  | finite (q : ℚ)
  | inf (neg : Bool)
  | nan
deriving DecidableEq, Repr

/-- Digit value of an ASCII digit character. -/
def digitVal (c : Char) : Option Nat :=
  if c.isDigit then some (c.toNat - 48) else none

/-- Fold a digit list into the natural number it denotes. -/
def natOfDigits (cs : List Char) : Nat :=
  cs.foldl (fun a c => 10 * a + (c.toNat - 48)) 0

/-- A non-empty all-digit character list, as a natural number. -/
def parseNatDigits (cs : List Char) : Option Nat :=
  if cs = [] then none
  else if cs.all Char.isDigit then some (natOfDigits cs)
  else none

/-- Python `str`'s notion of strippable whitespace, restricted to ASCII
(the inputs of this program are ASCII). -/
def isPySpace (c : Char) : Bool :=
  c = ' ' ∨ c = '\t' ∨ c = '\n' ∨ c = '\r' ∨ c = '\x0b' ∨ c = '\x0c'

/-- Model of Python's `str.strip()` on a character list. -/
def pyStrip (cs : List Char) : List Char :=
  ((cs.dropWhile isPySpace).reverse.dropWhile isPySpace).reverse

/-- Model of Python's `str.lower()` on a character list (ASCII case fold). -/
def pyLower (cs : List Char) : List Char :=
  cs.map Char.toLower

/-- Model of Python's `str.split(sep)` for a one-character separator. -/
def splitOnChar (sep : Char) : List Char → List (List Char)
  | [] => [[]]
  | c :: rest =>
      let r := splitOnChar sep rest
      if c = sep then [] :: r
      else
        match r with
        | [] => [[c]]
        | h :: t => (c :: h) :: t

/-- Model of Python's `str.replace(pat, rep)` for a one-character pattern. -/
def replaceChar (pat : Char) (rep : List Char) : List Char → List Char
  | [] => []
  | c :: rest => (if c = pat then rep else [c]) ++ replaceChar pat rep rest

/-- Model of the mantissa part of Python's `float()` grammar:
`digits`, `digits.digits`, `.digits` or `digits.` (at least one digit). -/
def parseMantissa (m : List Char) : Option ℚ :=
  match splitOnChar '.' m with
  | [ip] => (parseNatDigits ip).map (fun n => (n : ℚ))
  | [ics, fcs] =>
      if ics = [] ∧ fcs = [] then none
      else if ics.all Char.isDigit ∧ fcs.all Char.isDigit then
        some ((natOfDigits ics : ℚ) + (natOfDigits fcs : ℚ) / (10 : ℚ) ^ fcs.length)
      else none
  | _ => none

/-- Model of the exponent part of Python's `float()` grammar:
an optional sign followed by digits. -/
def parseExponent (ex : List Char) : Option Int :=
  match ex with
  | '+' :: rest => (parseNatDigits rest).map Int.ofNat
  | '-' :: rest => (parseNatDigits rest).map (fun n => -(n : Int))
  | cs => (parseNatDigits cs).map Int.ofNat

/-- Decimal (unsigned) part of Python's `float()` grammar: mantissa with an
optional `e`-exponent.  The input has already been lowercased. -/
def parseDecimal (u : List Char) : Option ℚ :=
  match splitOnChar 'e' u with
  | [m] => parseMantissa m
  | [m, ex] => do
      let q ← parseMantissa m
      let e ← parseExponent ex
      some (q * (10 : ℚ) ^ e)
  | _ => none

/-- Model of Python's built-in `float(str)`: strip surrounding whitespace,
case-insensitively accept `inf`/`infinity`/`nan` with an optional sign, else
parse a signed decimal literal.  (Digit-group underscores are not modelled.)
Literals of magnitude at least 2^1024 overflow to infinity as in IEEE
binary64; finite literals are otherwise kept exact. -/
def parsePyFloat (s : String) : Option PyFloat :=
  let t := pyLower (pyStrip s.data)
  let signed : Bool × List Char :=
    match t with
    | '-' :: u => (true, u)
    | '+' :: u => (false, u)
    | u => (false, u)
  let neg := signed.1
  let u := signed.2
  if u = "inf".data ∨ u = "infinity".data then some (PyFloat.inf neg)
  else if u = "nan".data then some PyFloat.nan
  else
    match parseDecimal u with
    | none => none
    | some q0 =>
        let q : ℚ := if neg then -q0 else q0
        if q ≤ -((2 ^ 1024 : ℕ) : ℚ) then some (PyFloat.inf true)
        else if ((2 ^ 1024 : ℕ) : ℚ) ≤ q then some (PyFloat.inf false)
        else some (PyFloat.finite q)

/-- Model of Python's built-in `int(float)`: truncation toward zero for finite
floats, `OverflowError` on infinities, `ValueError` on NaN. -/
def pyIntOfFloat : PyFloat → Except PyExn Int
  | PyFloat.finite q => Except.ok (q.num.tdiv (q.den : Int))
  | PyFloat.inf _ => Except.error PyExn.overflowError
  | PyFloat.nan => Except.error PyExn.valueError

/-- Timezone information attached to a datetime: either a fixed UTC offset in
minutes (as produced by parsing an ISO string with an offset) or a named
`ZoneInfo` zone (as configured on the monitor). -/
inductive TzInfo where
  | utcOffset (minutes : Int)
  | zone (name : String)
deriving DecidableEq, Repr

/-- Model of a Python `datetime.datetime` value: calendar and clock fields plus
optional timezone information (`tzinfo = none` is a naive datetime). -/
structure PyDatetime where
  year : Nat
  month : Nat
  day : Nat
  hour : Nat
  minute : Nat
  second : Nat
  microsecond : Nat
  tzinfo : Option TzInfo
deriving DecidableEq, Repr

/-- Read exactly two ASCII digits. -/
def parse2 : List Char → Option (Nat × List Char)
  | c1 :: c2 :: rest => do
      let d1 ← digitVal c1
      let d2 ← digitVal c2
      some (10 * d1 + d2, rest)
  | _ => none

/-- Read exactly four ASCII digits. -/
def parse4 : List Char → Option (Nat × List Char)
  | c1 :: c2 :: c3 :: c4 :: rest => do
      let d1 ← digitVal c1
      let d2 ← digitVal c2
      let d3 ← digitVal c3
      let d4 ← digitVal c4
      some (1000 * d1 + 100 * d2 + 10 * d3 + d4, rest)
  | _ => none

/-- Consume one expected character. -/
def expectChar (c : Char) : List Char → Option (List Char)
  | c0 :: rest => if c0 = c then some rest else none
  | [] => none

/-- Take a maximal run of leading ASCII digits. -/
def takeDigits : List Char → List Char × List Char
  | [] => ([], [])
  | c :: rest =>
      if c.isDigit then
        let p := takeDigits rest
        (c :: p.1, p.2)
      else ([], c :: rest)

/-- Parse the optional `±HH:MM` UTC-offset suffix of an ISO-8601 string (the
remainder must then be empty); result is the signed offset in minutes. -/
def parseOffsetTail : List Char → Option (Option Int)
  | [] => some none
  | c :: rest =>
      if c = '+' ∨ c = '-' then do
        let p1 ← parse2 rest
        let r2 ← expectChar ':' p1.2
        let p3 ← parse2 r2
        if 23 < p1.1 ∨ 59 < p3.1 ∨ p3.2 ≠ [] then none
        else
          let total : Int := 60 * (p1.1 : Int) + (p3.1 : Int)
          some (some (if c = '-' then -total else total))
      else none

/-- Parse the optional `.ffffff` fractional-second part (one to six digits)
followed by the optional offset; result is (microseconds, offset minutes). -/
def parseFracTail : List Char → Option (Nat × Option Int)
  | [] => some (0, none)
  | c :: rest =>
      if c = '.' then
        let p := takeDigits rest
        if p.1.length < 1 ∨ 6 < p.1.length then none
        else do
          let off ← parseOffsetTail p.2
          some (natOfDigits p.1 * 10 ^ (6 - p.1.length), off)
      else do
        let off ← parseOffsetTail (c :: rest)
        some (0, off)

/-- Parse the time-of-day part `HH[:MM[:SS[.ffffff]]]` followed by the
optional offset; result is (hour, minute, second, microsecond, offset). -/
def parseTimeTail (r : List Char) : Option (Nat × Nat × Nat × Nat × Option Int) := do
  let ph ← parse2 r
  if 23 < ph.1 then none
  else
    match ph.2 with
    | ':' :: r8 => do
        let pm ← parse2 r8
        if 59 < pm.1 then none
        else
          match pm.2 with
          | ':' :: r10 => do
              let ps ← parse2 r10
              if 59 < ps.1 then none
              else do
                let fo ← parseFracTail ps.2
                some (ph.1, pm.1, ps.1, fo.1, fo.2)
          | r9 => do
              let off ← parseOffsetTail r9
              some (ph.1, pm.1, 0, 0, off)
    | r7 => do
        let off ← parseOffsetTail r7
        some (ph.1, 0, 0, 0, off)

/-- Model of Python's `datetime.fromisoformat` on the shapes this program
meets: `YYYY-MM-DD`, optionally followed by a `T` or space separator and
`HH[:MM[:SS[.ffffff]]]`, optionally followed by a `±HH:MM` offset.  Month,
day and clock fields are range-checked (day only against 31; per-month day
counts are not modelled — no claim depends on them).  Unparsable input is
`none` (the caller catches `ValueError`). -/
def fromisoformat (s : String) : Option PyDatetime := do
  let cs := s.toList
  let py ← parse4 cs
  let r2 ← expectChar '-' py.2
  let pm ← parse2 r2
  let r4 ← expectChar '-' pm.2
  let pd ← parse2 r4
  if pm.1 < 1 ∨ 12 < pm.1 ∨ pd.1 < 1 ∨ 31 < pd.1 then none
  else
    match pd.2 with
    | [] => some ⟨py.1, pm.1, pd.1, 0, 0, 0, 0, none⟩
    | sep :: r6 =>
        if sep = 'T' ∨ sep = ' ' then do
          let t ← parseTimeTail r6
          some ⟨py.1, pm.1, pd.1, t.1, t.2.1, t.2.2.1, t.2.2.2.1,
                t.2.2.2.2.map TzInfo.utcOffset⟩
        else none

/-- `HassStateMonitor._convert_timestamp`, with the monitor's `self.tz` passed
explicitly.  `astz` is the zone-arithmetic of the Python standard library's
`datetime.astimezone` (external to this repository), passed as a parameter;
no claim depends on its value.  `datetime.replace(tzinfo=...)` attaches the
zone without touching any other field, exactly as the record update does. -/
def convert_timestamp (astz : PyDatetime → String → PyDatetime) (tz : Option String)
    (timestamp_str : Option String) : Option PyDatetime :=
  match timestamp_str with
  | none => none
  | some s =>
      if s = "" then none
      else
        match fromisoformat (String.mk (replaceChar 'Z' "+00:00".data s.data)) with
        | none => none
        | some datetime_value =>
            match tz with
            | none => some datetime_value
            | some z =>
                match datetime_value.tzinfo with
                | some _ => some (astz datetime_value z)
                | none => some { datetime_value with tzinfo := some (TzInfo.zone z) }

/-- A typed Python value as produced by `_convert_value`.  An unrecognized
data-type string returns the input object itself; since the raw domain is
strings, that result is again a `str`. -/
inductive PyObj where
  | float (f : PyFloat)
  | int (n : Int)
  | str (s : String)
  | bool (b : Bool)
  | datetime (d : PyDatetime)
deriving DecidableEq, Repr

/-- The body of the `try:` block of `HassStateMonitor._convert_value`, for a
present, non-sentinel raw value `v` (always a string on the event path). -/
def convert_value_try (astz : PyDatetime → String → PyDatetime) (tz : Option String)
    (v : String) (data_type : String) : Except PyExn (Option PyObj) :=
  if data_type = "numeric" then
    match parsePyFloat v with
    | some f => Except.ok (some (PyObj.float f))
    | none => Except.error PyExn.valueError
  else if data_type = "datetime" then
    Except.ok ((convert_timestamp astz tz (some v)).map PyObj.datetime)
  else if data_type = "str" ∨ data_type = "string" then
    Except.ok (some (PyObj.str v))
  else if data_type = "bool" ∨ data_type = "boolean" then
    let lower_val := pyLower v.data
    if lower_val = "on".data ∨ lower_val = "true".data ∨ lower_val = "1".data then
      Except.ok (some (PyObj.bool true))
    else if lower_val = "off".data ∨ lower_val = "false".data ∨ lower_val = "0".data then
      Except.ok (some (PyObj.bool false))
    else Except.ok none
  else if data_type = "int" ∨ data_type = "integer" then
    match parsePyFloat v with
    | none => Except.error PyExn.valueError
    | some f =>
        match pyIntOfFloat f with
        | Except.ok n => Except.ok (some (PyObj.int n))
        | Except.error e => Except.error e
  else
    Except.ok (some (PyObj.str v))

/-- `HassStateMonitor._convert_value`: sentinel handling (`None`, `"unknown"`,
`"unavailable"` give `None`), then the `try:` body with
`except (ValueError, TypeError, AttributeError): return None`; any other
exception kind (notably `OverflowError` from `int()`) propagates. -/
def convert_value (astz : PyDatetime → String → PyDatetime) (tz : Option String)
    (value : Option String) (data_type : String) : Except PyExn (Option PyObj) :=
  match value with
  | none => Except.ok none
  | some v =>
      if v = "unknown" ∨ v = "unavailable" then Except.ok none
      else
        match convert_value_try astz tz v data_type with
        | Except.ok r => Except.ok r
        | Except.error e =>
            if e = PyExn.valueError ∨ e = PyExn.typeError ∨ e = PyExn.attributeError then
              Except.ok none
            else Except.error e

/-- Attribute maps are passed through untouched by the monitor; their
arbitrarily shaped JSON values are modelled as opaque strings. -/
def AttrMap : Type := List (String × String)
deriving instance DecidableEq, Repr for AttrMap

/-- A Home Assistant state object inside a trigger (`to_state`/`from_state`):
the code indexes `state`, `attributes`, `last_changed` and `last_updated`
directly, so they are plain fields. -/
structure StateObj where
  state : String
  attributes : AttrMap
  last_changed : String
  last_updated : String
deriving DecidableEq, Repr

/-- The trigger object of an event frame.  The code reads it through
`message['event'].get('variables', {}).get('trigger', {})`: a missing level
collapses to an empty trigger, represented by both states absent. -/
structure Trigger where
  to_state : Option StateObj
  from_state : Option StateObj
  for_duration : Option String
deriving DecidableEq, Repr

/-- The dataclass `StateChangeEvent`. -/
structure StateChangeEvent where
  entity_id : String
  subscription_id : Nat
  data_type : String
  new_state : Option PyObj
  old_state : Option PyObj
  new_state_raw : Option String
  old_state_raw : Option String
  new_attributes : Option AttrMap
  old_attributes : Option AttrMap
  last_changed : Option PyDatetime
  last_updated : Option PyDatetime
  for_duration : Option String
deriving DecidableEq, Repr

/-- The mutable/configured fields of a `HassStateMonitor` instance set in
`__init__` (runtime handles omitted, see the file header). -/
structure Monitor where
  hostname : String
  api_key : String
  entities : List (String × String)
  entity_ids : List String
  message_id : Nat
  subscription_ids : List (Nat × String)
  should_reconnect : Bool
  tz : Option String
deriving DecidableEq, Repr

/-- Python `dict.get(k)` on an insertion-ordered association list. -/
def dictGet (d : List (Nat × String)) (k : Nat) : Option String :=
  (d.find? (fun p => p.1 = k)).map Prod.snd

/-- Python `d[k] = v`: overwrite in place if the key exists, else append. -/
def dictInsert (d : List (Nat × String)) (k : Nat) (v : String) : List (Nat × String) :=
  if d.any (fun p => p.1 = k) then d.map (fun p => if p.1 = k then (k, v) else p)
  else d ++ [(k, v)]

/-- `dict.get` for the string-keyed `self.entities` configuration dict. -/
def entGet (d : List (String × String)) (k : String) : Option String :=
  (d.find? (fun p => p.1 = k)).map Prod.snd

/-- `HassStateMonitor.__init__`: stores the configuration verbatim.  The body
performs NO validation and contains no `raise`, so the result is always `ok`
(a string `tz` is looked up with `ZoneInfo(tz)`, external zone-database
machinery that does not depend on hostname/api_key/entities; it is modelled
as storing the zone name). -/
def hassStateMonitor_init (hostname : String) (api_key : String)
    (entities : List (String × String)) (tz : Option String) : Except PyExn Monitor :=
  Except.ok
    { hostname := hostname
      api_key := api_key
      entities := entities
      entity_ids := entities.map Prod.fst
      message_id := 1
      subscription_ids := []
      should_reconnect := false
      tz := tz }

/-- Outbound frames produced by the monitor. -/
inductive OutMsg where
  | auth (access_token : String)
  | subscribe_trigger (id : Nat) (entity_id : String)
deriving DecidableEq, Repr

/-- Observable effects of the handlers: frames sent on the socket, log lines,
the user callback being invoked, a callback exception being caught and
logged, and (for `_on_close`) the sleep and reconnection of the retry loop. -/
inductive Effect where
  | send (m : OutMsg)
  | log (s : String)
  | callbackInvoked (e : StateChangeEvent)
  | callbackErrorLogged (entity_id : String)
  | sleep (seconds : Nat)
  | reconnect
deriving DecidableEq, Repr

/-- The loop body of `HassStateMonitor._subscribe_to_entities`: for each
entity id in order, record (message_id -> entity) in the table, send the
subscribe frame, log, and increment the counter.  Returns the final table,
the final counter and the emitted actions. -/
def subscribe_go (subs : List (Nat × String)) (message_id : Nat) :
    List String → List (Nat × String) × Nat × List Effect
  | [] => (subs, message_id, [])
  | entity_id :: rest =>
      let subscription_id := message_id
      let subs' := dictInsert subs subscription_id entity_id
      let r := subscribe_go subs' (message_id + 1) rest
      (r.1, r.2.1,
        Effect.send (OutMsg.subscribe_trigger subscription_id entity_id) ::
        Effect.log ("Subscribed to " ++ entity_id ++ " with ID " ++ toString subscription_id) ::
        r.2.2)

/-- `HassStateMonitor._subscribe_to_entities`. -/
def subscribe_to_entities (m : Monitor) : Monitor × List Effect :=
  let r := subscribe_go m.subscription_ids m.message_id m.entity_ids
  ({ m with subscription_ids := r.1, message_id := r.2.1 }, r.2.2)

/-- The `StateChangeEvent(...)` construction inside
`HassStateMonitor._handle_state_change` (note the source passes `to_state`
for BOTH `last_changed` and `last_updated`). -/
def build_event (astz : PyDatetime → String → PyDatetime) (m : Monitor)
    (entity_id : String) (subscription_id : Nat) (data_type : String)
    (trig : Trigger) (new_state old_state : Option PyObj) : StateChangeEvent :=
  { entity_id := entity_id
    subscription_id := subscription_id
    data_type := data_type
    new_state := new_state
    old_state := old_state
    new_state_raw := trig.to_state.map StateObj.state
    old_state_raw := trig.from_state.map StateObj.state
    new_attributes := trig.to_state.map StateObj.attributes
    old_attributes := trig.from_state.map StateObj.attributes
    last_changed := convert_timestamp astz m.tz (trig.to_state.map StateObj.last_changed)
    last_updated := convert_timestamp astz m.tz (trig.to_state.map StateObj.last_updated)
    for_duration := trig.for_duration }

/-- `HassStateMonitor._handle_state_change`.  The method mutates no monitor
state; its result is the list of observable actions.  `if not entity_id:`
drops the frame both when the id is absent from the table and when the
recorded entity id is the empty string.  The user callback `cb` may raise
(`Except.error`); the surrounding `try/except Exception` catches it and logs
with the entity id. -/
def handle_state_change (cb : StateChangeEvent → Except String Unit)
    (astz : PyDatetime → String → PyDatetime) (m : Monitor)
    (id : Nat) (trig : Trigger) : Except PyExn (List Effect) :=
  match dictGet m.subscription_ids id with
  | none => Except.ok []
  | some entity_id =>
      if entity_id = "" then Except.ok []
      else
        match entGet m.entities entity_id with
        | none => Except.error PyExn.keyError
        | some data_type =>
            match convert_value astz m.tz (trig.to_state.map StateObj.state) data_type with
            | Except.error e => Except.error e
            | Except.ok new_state =>
                match convert_value astz m.tz (trig.from_state.map StateObj.state) data_type with
                | Except.error e => Except.error e
                | Except.ok old_state =>
                    let event := build_event astz m entity_id id data_type trig new_state old_state
                    match cb event with
                    | Except.ok _ => Except.ok [Effect.callbackInvoked event]
                    | Except.error _ =>
                        Except.ok [Effect.callbackInvoked event,
                                   Effect.callbackErrorLogged entity_id]

/-- Inbound frames, keyed by the `type` field of the JSON message.  The code
has NO branch for `auth_invalid`; it is carried as its own constructor so
that the claim about it can be stated, and falls to the same no-op as
`other`. -/
inductive Frame where
  | auth_required
  | auth_ok
  | auth_invalid
  | result (id : Nat) (success : Bool) (error : Option String)
  | event (id : Nat) (trig : Trigger)
  | other (t : String)
deriving DecidableEq, Repr

/-- `HassStateMonitor._on_message`: dispatch on `msg['type']`.  Message types
without a branch (including `auth_invalid`) are silently ignored. -/
def on_message (cb : StateChangeEvent → Except String Unit)
    (astz : PyDatetime → String → PyDatetime) (m : Monitor) (f : Frame) :
    Except PyExn (Monitor × List Effect) :=
  match f with
  | Frame.auth_required => Except.ok (m, [Effect.send (OutMsg.auth m.api_key)])
  | Frame.auth_ok =>
      let r := subscribe_to_entities m
      Except.ok (r.1, Effect.log "Authentication successful" :: r.2)
  | Frame.result id success _err =>
      if success then Except.ok (m, [Effect.log ("Subscription successful for ID " ++ toString id)])
      else Except.ok (m, [Effect.log ("Subscription failed for ID " ++ toString id)])
  | Frame.event id trig =>
      match handle_state_change cb astz m id trig with
      | Except.ok acts => Except.ok (m, acts)
      | Except.error e => Except.error e
  | Frame.auth_invalid => Except.ok (m, [])
  | Frame.other _ => Except.ok (m, [])

/-- `HassStateMonitor._on_close`: log, clear the subscription table in full,
and if `should_reconnect` sleep five seconds and reconnect (a reconnection
starts a fresh session on the SAME monitor state: in particular `message_id`
is not reset). -/
def on_close (m : Monitor) : Monitor × List Effect :=
  let m' := { m with subscription_ids := ([] : List (Nat × String)) }
  if m.should_reconnect then
    (m', [Effect.log "Disconnected from Home Assistant",
          Effect.log "Reconnecting in 5 seconds...",
          Effect.sleep 5, Effect.reconnect])
  else
    (m', [Effect.log "Disconnected from Home Assistant"])

/-- `HassStateMonitor.start`: sets `should_reconnect` and unconditionally
spawns a new monitoring thread (`spawned` counts threads started so far; the
body contains no running-state check and no `raise`). -/
def start (m : Monitor) (spawned : Nat) : Except PyExn (Monitor × Nat) :=
  Except.ok ({ m with should_reconnect := true }, spawned + 1)

/-- The read loop: frames delivered in order to `_on_message`, actions
accumulated; an uncaught exception ends the loop. -/
def run_frames (cb : StateChangeEvent → Except String Unit)
    (astz : PyDatetime → String → PyDatetime) (m : Monitor) :
    List Frame → Except PyExn (Monitor × List Effect)
  | [] => Except.ok (m, [])
  | f :: rest =>
      match on_message cb astz m f with
      | Except.error e => Except.error e
      | Except.ok (m', acts) =>
          match run_frames cb astz m' rest with
          | Except.error e => Except.error e
          | Except.ok (m'', acts') => Except.ok (m'', acts ++ acts')

/-- The (id, entity) pairs a subscription pass starting at counter `mid`
records in the table, in order. -/
def pairsFrom (mid : Nat) : List String → List (Nat × String)
  | [] => []
  | e :: rest => (mid, e) :: pairsFrom (mid + 1) rest

/-- The effects a subscription pass starting at counter `mid` emits. -/
def msgsFrom (mid : Nat) : List String → List Effect
  | [] => []
  | e :: rest =>
      Effect.send (OutMsg.subscribe_trigger mid e) ::
      Effect.log ("Subscribed to " ++ e ++ " with ID " ++ toString mid) ::
      msgsFrom (mid + 1) rest

/-- The ids of the subscribe requests among a list of effects, in order. -/
def sentSubscribeIds (acts : List Effect) : List Nat :=
  acts.filterMap (fun a =>
    match a with
    | Effect.send (OutMsg.subscribe_trigger i _) => some i
    | _ => none)

theorem subscribe_go_out (es : List String) : ∀ subs mid,
    (subscribe_go subs mid es).2.1 = mid + es.length ∧
    (subscribe_go subs mid es).2.2 = msgsFrom mid es := by
  induction es with
  | nil => intro subs mid; simp [subscribe_go, msgsFrom]
  | cons e rest ih =>
      intro subs mid
      have h := ih (dictInsert subs mid e) (mid + 1)
      refine ⟨?_, ?_⟩
      · simp only [subscribe_go, h.1, List.length_cons]
        omega
      · simp only [subscribe_go, msgsFrom, h.2]

theorem subscribe_go_subs (es : List String) : ∀ subs mid,
    (∀ p ∈ subs, p.1 < mid) →
    (subscribe_go subs mid es).1 = subs ++ pairsFrom mid es := by
  induction es with
  | nil => intro subs mid _; simp [subscribe_go, pairsFrom]
  | cons e rest ih =>
      intro subs mid h
      have hfresh : subs.any (fun p => p.1 = mid) = false := by
        simp only [List.any_eq_false, decide_eq_true_eq]
        intro p hp
        exact Nat.ne_of_lt (h p hp)
      have hins : dictInsert subs mid e = subs ++ [(mid, e)] := by
        simp [dictInsert, hfresh]
      have hinv : ∀ p ∈ subs ++ [(mid, e)], p.1 < mid + 1 := by
        intro p hp
        rcases List.mem_append.mp hp with hl | hr
        · exact Nat.lt_succ_of_lt (h p hl)
        · simp at hr; subst hr; exact Nat.lt_succ_self mid
      have h2 := ih (subs ++ [(mid, e)]) (mid + 1) hinv
      simp only [subscribe_go, hins, h2, pairsFrom, List.append_assoc, List.singleton_append]

theorem pairsFrom_key_ge (es : List String) : ∀ mid p, p ∈ pairsFrom mid es → mid ≤ p.1 := by
  induction es with
  | nil => intro mid p hp; simp [pairsFrom] at hp
  | cons e rest ih =>
      intro mid p hp
      simp only [pairsFrom, List.mem_cons] at hp
      rcases hp with h | h
      · subst h; exact Nat.le_refl mid
      · exact Nat.le_of_succ_le (ih (mid + 1) p h)

theorem dictGet_pairsFrom (es : List String) : ∀ mid i e,
    (i, e) ∈ pairsFrom mid es → dictGet (pairsFrom mid es) i = some e := by
  induction es with
  | nil => intro mid i e h; simp [pairsFrom] at h
  | cons e0 rest ih =>
      intro mid i e h
      simp only [pairsFrom, List.mem_cons, Prod.mk.injEq] at h
      rcases h with ⟨h1, h2⟩ | h
      · subst h1; subst h2
        simp [dictGet, pairsFrom, List.find?]
      · have hge := pairsFrom_key_ge rest (mid + 1) (i, e) h
        have hne : ¬ mid = i := by simp at hge; omega
        have := ih (mid + 1) i e h
        simpa [dictGet, pairsFrom, List.find?, hne] using this

theorem send_mem_msgsFrom (es : List String) : ∀ mid i e,
    Effect.send (OutMsg.subscribe_trigger i e) ∈ msgsFrom mid es →
    (i, e) ∈ pairsFrom mid es := by
  induction es with
  | nil => intro mid i e h; simp [msgsFrom] at h
  | cons e0 rest ih =>
      intro mid i e h
      simp only [msgsFrom, List.mem_cons] at h
      rcases h with h | h | h
      · simp only [Effect.send.injEq, OutMsg.subscribe_trigger.injEq] at h
        simp [pairsFrom, h.1, h.2]
      · cases h
      · exact List.mem_cons_of_mem _ (ih (mid + 1) i e h)

theorem sentSubscribeIds_msgsFrom (es : List String) : ∀ mid,
    sentSubscribeIds (msgsFrom mid es) = List.range' mid es.length := by
  induction es with
  | nil => intro mid; simp [msgsFrom, sentSubscribeIds]
  | cons e rest ih =>
      intro mid
      simp only [msgsFrom, sentSubscribeIds, List.filterMap_cons, List.length_cons,
        List.range'_succ]
      simpa [sentSubscribeIds] using ih (mid + 1)

/-- `_on_close` always clears the table and touches nothing else in the
state, whether or not a reconnect follows. -/
theorem on_close_fst (m : Monitor) :
    (on_close m).1 = { m with subscription_ids := ([] : List (Nat × String)) } := by
  by_cases h : m.should_reconnect <;> simp [on_close, h]

/-- A user callback that never raises. -/
def cbTriv : StateChangeEvent → Except String Unit := fun _ => Except.ok ()

/-- A user callback that raises exactly on events for `sensor.a`. -/
def cbBoom : StateChangeEvent → Except String Unit :=
  fun e => if e.entity_id = "sensor.a" then Except.error "boom" else Except.ok ()

/-- A trivial stand-in for the standard library's zone arithmetic. -/
def astzId : PyDatetime → String → PyDatetime := fun d _ => d

/-- A monitor configured for one numeric entity, as after `start()`
(`should_reconnect = true`), before any subscription. -/
def monA : Monitor :=
  { hostname := "ws://h", api_key := "k",
    entities := [("sensor.a", "numeric")], entity_ids := ["sensor.a"],
    message_id := 1, subscription_ids := [], should_reconnect := true, tz := none }

/-- A live monitor with two string entities already subscribed (ids 1, 2). -/
def monB : Monitor :=
  { hostname := "ws://h", api_key := "k",
    entities := [("sensor.a", "str"), ("sensor.b", "str")],
    entity_ids := ["sensor.a", "sensor.b"],
    message_id := 3, subscription_ids := [(1, "sensor.a"), (2, "sensor.b")],
    should_reconnect := true, tz := none }

/-- The same two-entity configuration before any subscription. -/
def monB0 : Monitor := { monB with message_id := 1, subscription_ids := [] }

/-- A state-change trigger for a single appearing state. -/
def trigA : Trigger :=
  { to_state := some { state := "21.5", attributes := [], last_changed := "", last_updated := "" },
    from_state := none, for_duration := none }

/-- C1: every subscription id recorded when a subscribe request is sent
resolves (via the table the event router consults) to the entity it was
recorded for while the session lasts; `_on_close` clears the table in full,
after which every id resolves to absent and an event frame referencing any
id is dropped by `_handle_state_change` with no effect at all — in
particular the user callback is not invoked. -/
theorem C1_roundtrip_until_close (cb : StateChangeEvent → Except String Unit)
    (astz : PyDatetime → String → PyDatetime) (m : Monitor)
    (hempty : m.subscription_ids = []) :
    (∀ i e, Effect.send (OutMsg.subscribe_trigger i e) ∈ (subscribe_to_entities m).2 →
      dictGet (subscribe_to_entities m).1.subscription_ids i = some e)
    ∧ (∀ i, dictGet (on_close (subscribe_to_entities m).1).1.subscription_ids i = none)
    ∧ (∀ i trig, handle_state_change cb astz (on_close (subscribe_to_entities m).1).1 i trig
        = Except.ok ([] : List Effect)) := by
  have hout : (subscribe_to_entities m).2 = msgsFrom m.message_id m.entity_ids := by
    simp [subscribe_to_entities, (subscribe_go_out m.entity_ids m.subscription_ids m.message_id).2]
  have hsubs : (subscribe_to_entities m).1.subscription_ids
      = pairsFrom m.message_id m.entity_ids := by
    have h0 := subscribe_go_subs m.entity_ids [] m.message_id (by intro p hp; cases hp)
    simp [subscribe_to_entities, hempty, h0]
  refine ⟨?_, ?_, ?_⟩
  · intro i e hmem
    rw [hout] at hmem
    rw [hsubs]
    exact dictGet_pairsFrom m.entity_ids m.message_id i e
      (send_mem_msgsFrom m.entity_ids m.message_id i e hmem)
  · intro i
    rw [on_close_fst]
    simp [dictGet]
  · intro i trig
    rw [on_close_fst]
    simp [handle_state_change, dictGet]

theorem C1_witness :
    monB0.subscription_ids = [] ∧
    ((∀ i e, Effect.send (OutMsg.subscribe_trigger i e) ∈ (subscribe_to_entities monB0).2 →
        dictGet (subscribe_to_entities monB0).1.subscription_ids i = some e)
      ∧ (∀ i, dictGet (on_close (subscribe_to_entities monB0).1).1.subscription_ids i = none)
      ∧ (∀ i trig,
          handle_state_change cbTriv astzId (on_close (subscribe_to_entities monB0).1).1 i trig
            = Except.ok ([] : List Effect))) :=
  ⟨rfl, C1_roundtrip_until_close cbTriv astzId monB0 rfl⟩

/-- C2 (amended): within one session the subscribe requests are one per
configured entity, in declaration order, with consecutive (hence strictly
increasing) ids — but starting from the monitor's CURRENT `message_id`
counter, not from 1.  A freshly constructed monitor has `message_id = 1`, so
the FIRST session starts at 1; `_on_close` does not reset the counter, so a
session started by the reconnect loop continues where the previous one
stopped. -/
theorem C2_amended_session_ids (m : Monitor) (hostname api_key : String)
    (entities : List (String × String)) (tz : Option String) :
    (subscribe_to_entities m).2 = msgsFrom m.message_id m.entity_ids
    ∧ sentSubscribeIds (subscribe_to_entities m).2
        = List.range' m.message_id m.entity_ids.length
    ∧ (subscribe_to_entities m).1.message_id = m.message_id + m.entity_ids.length
    ∧ (∀ m0, hassStateMonitor_init hostname api_key entities tz = Except.ok m0 →
        m0.message_id = 1 ∧ m0.entity_ids = entities.map Prod.fst)
    ∧ (on_close m).1.message_id = m.message_id := by
  have hgo := subscribe_go_out m.entity_ids m.subscription_ids m.message_id
  have hout : (subscribe_to_entities m).2 = msgsFrom m.message_id m.entity_ids := by
    simp [subscribe_to_entities, hgo.2]
  refine ⟨hout, ?_, ?_, ?_, ?_⟩
  · rw [hout, sentSubscribeIds_msgsFrom]
  · simp [subscribe_to_entities, hgo.1]
  · intro m0 h0
    cases h0
    exact ⟨rfl, rfl⟩
  · rw [on_close_fst]

/-- C2 is false as stated: with a single configured entity, the first
session's subscribe request carries id 1, but after a transport close and
reconnect the next session's subscribe request carries id 2 — not id 1,
because `__init__` is the only place `message_id` is reset. -/
theorem C2_counterexample :
    hassStateMonitor_init "ws://h" "k" [("sensor.a", "numeric")] none
        = Except.ok { monA with should_reconnect := false }
    ∧ start { monA with should_reconnect := false } 0 = Except.ok (monA, 1)
    ∧ sentSubscribeIds (subscribe_to_entities monA).2 = [1]
    ∧ (on_close (subscribe_to_entities monA).1).1.subscription_ids = []
    ∧ sentSubscribeIds
        (subscribe_to_entities (on_close (subscribe_to_entities monA).1).1).2 = [2]
    ∧ [2] ≠ [1] :=
  ⟨rfl, rfl, rfl, rfl, rfl, by decide⟩

/-- C3: a raw value that is absent or one of the exact sentinel strings
`"unknown"` / `"unavailable"` converts to `None` for every declared
data-type string — no exception and no typed value. -/
theorem C3_sentinels_to_absent (astz : PyDatetime → String → PyDatetime)
    (tz : Option String) (data_type : String) :
    convert_value astz tz none data_type = Except.ok none
    ∧ convert_value astz tz (some "unknown") data_type = Except.ok none
    ∧ convert_value astz tz (some "unavailable") data_type = Except.ok none := by
  refine ⟨rfl, ?_, ?_⟩ <;> simp [convert_value]

/-- C4 is false as stated: `_convert_value` is NOT total.  For the Integer
semantic type the code computes `int(float(value))` and catches only
`(ValueError, TypeError, AttributeError)`; on the input `"inf"`,
`float` succeeds with infinity and `int` raises `OverflowError`, which
escapes the handler uncaught. -/
theorem C4_integer_inf_uncaught (astz : PyDatetime → String → PyDatetime)
    (tz : Option String) :
    convert_value astz tz (some "inf") "int" = Except.error PyExn.overflowError
    ∧ convert_value astz tz (some "inf") "integer" = Except.error PyExn.overflowError :=
  ⟨rfl, rfl⟩

/-- C5: for a parsable timestamp string carrying no UTC offset, with a target
zone configured, `_convert_timestamp` attaches the zone via
`replace(tzinfo=...)`: the result keeps every wall-clock field of the parsed
string (hour, minute and second in particular) and only gains the zone; the
clock reading is not shifted. -/
theorem C5_naive_timestamp_attaches_zone (astz : PyDatetime → String → PyDatetime)
    (z s : String) (dt : PyDatetime)
    (hne : s ≠ "")
    (hp : fromisoformat (String.mk (replaceChar 'Z' "+00:00".data s.data)) = some dt)
    (hnaive : dt.tzinfo = none) :
    convert_timestamp astz (some z) (some s)
        = some { dt with tzinfo := some (TzInfo.zone z) }
    ∧ (convert_timestamp astz (some z) (some s)).map PyDatetime.hour = some dt.hour
    ∧ (convert_timestamp astz (some z) (some s)).map PyDatetime.minute = some dt.minute
    ∧ (convert_timestamp astz (some z) (some s)).map PyDatetime.second = some dt.second := by
  have hmain : convert_timestamp astz (some z) (some s)
      = some { dt with tzinfo := some (TzInfo.zone z) } := by
    simp only [convert_timestamp, hne, hp, hnaive, if_neg hne]
    simp
  exact ⟨hmain, by rw [hmain]; simp, by rw [hmain]; simp, by rw [hmain]; simp⟩

theorem C5_witness :
    ("2024-02-14T10:30:00" : String) ≠ ""
    ∧ fromisoformat
        (String.mk (replaceChar 'Z' "+00:00".data "2024-02-14T10:30:00".data))
        = some ⟨2024, 2, 14, 10, 30, 0, 0, none⟩
    ∧ (convert_timestamp astzId (some "Australia/Sydney") (some "2024-02-14T10:30:00")
        = some ⟨2024, 2, 14, 10, 30, 0, 0, some (TzInfo.zone "Australia/Sydney")⟩
      ∧ (convert_timestamp astzId (some "Australia/Sydney")
          (some "2024-02-14T10:30:00")).map PyDatetime.hour = some 10
      ∧ (convert_timestamp astzId (some "Australia/Sydney")
          (some "2024-02-14T10:30:00")).map PyDatetime.minute = some 30
      ∧ (convert_timestamp astzId (some "Australia/Sydney")
          (some "2024-02-14T10:30:00")).map PyDatetime.second = some 0) :=
  ⟨by decide, rfl,
    C5_naive_timestamp_attaches_zone astzId "Australia/Sydney" "2024-02-14T10:30:00"
      ⟨2024, 2, 14, 10, 30, 0, 0, none⟩ (by decide) rfl rfl⟩

/-- C6: when the user callback raises on a decoded event, the exception is
caught: `_handle_state_change` still returns normally, records that the
failure was logged with the offending entity id, and the read loop processes
every following frame exactly as it would have without the failure — so the
next event (for the same or any other entity) is still delivered. -/
theorem C6_callback_failure_isolated (cb : StateChangeEvent → Except String Unit)
    (astz : PyDatetime → String → PyDatetime) (m : Monitor) (id : Nat) (trig : Trigger)
    (entity data_type : String) (ns os : Option PyObj) (err : String)
    (h1 : dictGet m.subscription_ids id = some entity)
    (h2 : entity ≠ "")
    (h3 : entGet m.entities entity = some data_type)
    (h4 : convert_value astz m.tz (trig.to_state.map StateObj.state) data_type = Except.ok ns)
    (h5 : convert_value astz m.tz (trig.from_state.map StateObj.state) data_type = Except.ok os)
    (h6 : cb (build_event astz m entity id data_type trig ns os) = Except.error err) :
    handle_state_change cb astz m id trig
      = Except.ok [Effect.callbackInvoked (build_event astz m entity id data_type trig ns os),
                   Effect.callbackErrorLogged entity]
    ∧ ∀ rest, run_frames cb astz m (Frame.event id trig :: rest)
        = (run_frames cb astz m rest).map (fun r =>
            (r.1, Effect.callbackInvoked (build_event astz m entity id data_type trig ns os)
              :: Effect.callbackErrorLogged entity :: r.2)) := by
  have hh : handle_state_change cb astz m id trig
      = Except.ok [Effect.callbackInvoked (build_event astz m entity id data_type trig ns os),
                   Effect.callbackErrorLogged entity] := by
    simp only [handle_state_change, h1, h3, h4, h5, h6, if_neg h2]
  refine ⟨hh, ?_⟩
  intro rest
  have hom : on_message cb astz m (Frame.event id trig)
      = Except.ok (m, [Effect.callbackInvoked (build_event astz m entity id data_type trig ns os),
                       Effect.callbackErrorLogged entity]) := by
    simp only [on_message, hh]
  simp only [run_frames, hom]
  cases hr : run_frames cb astz m rest with
  | error e => simp [Except.map]
  | ok r => cases r with
    | mk m2 acts2 => simp [Except.map]

theorem C6_witness :
    dictGet monB.subscription_ids 1 = some "sensor.a"
    ∧ ("sensor.a" : String) ≠ ""
    ∧ entGet monB.entities "sensor.a" = some "str"
    ∧ convert_value astzId monB.tz (trigA.to_state.map StateObj.state) "str"
        = Except.ok (some (PyObj.str "21.5"))
    ∧ convert_value astzId monB.tz (trigA.from_state.map StateObj.state) "str"
        = Except.ok none
    ∧ cbBoom (build_event astzId monB "sensor.a" 1 "str" trigA (some (PyObj.str "21.5")) none)
        = Except.error "boom"
    ∧ (handle_state_change cbBoom astzId monB 1 trigA
        = Except.ok [Effect.callbackInvoked
            (build_event astzId monB "sensor.a" 1 "str" trigA (some (PyObj.str "21.5")) none),
          Effect.callbackErrorLogged "sensor.a"]
      ∧ ∀ rest, run_frames cbBoom astzId monB (Frame.event 1 trigA :: rest)
          = (run_frames cbBoom astzId monB rest).map (fun r =>
              (r.1, Effect.callbackInvoked
                  (build_event astzId monB "sensor.a" 1 "str" trigA (some (PyObj.str "21.5")) none)
                :: Effect.callbackErrorLogged "sensor.a" :: r.2))) :=
  ⟨rfl, by decide, rfl, rfl, rfl, rfl,
    C6_callback_failure_isolated cbBoom astzId monB 1 trigA "sensor.a" "str"
      (some (PyObj.str "21.5")) none "boom" rfl (by decide) rfl rfl rfl rfl⟩

/-- C7 (amended): `_on_message` has no branch for an `auth_invalid` frame, so
the client treats it exactly like any other unhandled message type: the
state is unchanged and nothing is sent, logged or surfaced.  The session
only ends on an authentication failure when the server subsequently closes
the transport, which is handled by `_on_close`. -/
theorem C7_amended_auth_invalid_ignored (cb : StateChangeEvent → Except String Unit)
    (astz : PyDatetime → String → PyDatetime) (m : Monitor) (t : String) :
    on_message cb astz m Frame.auth_invalid = Except.ok (m, ([] : List Effect))
    ∧ on_message cb astz m Frame.auth_invalid = on_message cb astz m (Frame.other t) :=
  ⟨rfl, rfl⟩

/-- C7 is false as stated: on a concrete live monitor, receiving
`auth_invalid` produces no transition and no surfaced error — the result is
identical to receiving an unknown frame type, the subscription table is kept
and `should_reconnect` is untouched, so the session does not end. -/
theorem C7_counterexample :
    on_message cbTriv astzId monB Frame.auth_invalid = Except.ok (monB, ([] : List Effect))
    ∧ on_message cbTriv astzId monB Frame.auth_invalid
        = on_message cbTriv astzId monB (Frame.other "totally_unknown")
    ∧ monB.subscription_ids ≠ []
    ∧ monB.should_reconnect = true :=
  ⟨rfl, rfl, by decide, rfl⟩

/-- C8 is false of the code (the claim matches the constructor's docstring,
which promises `ValueError` on empty/invalid arguments): `__init__` performs
no validation at all, so constructing with an empty hostname, empty api key
and empty entity set succeeds synchronously. -/
theorem C8_init_accepts_empty_config :
    hassStateMonitor_init "" "" [] none
      = Except.ok
          { hostname := "", api_key := "", entities := [], entity_ids := [],
            message_id := 1, subscription_ids := [], should_reconnect := false,
            tz := none } :=
  rfl

/-- C9 is false of the code (the claim matches `start`'s docstring, which
promises `RuntimeError` if already running): `start` performs no
running-state check and never raises; each call unconditionally spawns one
more monitoring thread, so a second call while running silently starts a
second concurrent monitoring context. -/
theorem C9_start_twice_spawns_silently (m : Monitor) (spawned : Nat) :
    start m spawned = Except.ok ({ m with should_reconnect := true }, spawned + 1)
    ∧ (start m 0).bind (fun r => start r.1 r.2)
        = Except.ok ({ m with should_reconnect := true }, 2) :=
  ⟨rfl, rfl⟩

/-- C10: for a present, non-sentinel raw value, an unrecognized data-type
string falls into the final `else` of `_convert_value` and the raw value is
returned unchanged — neither absent nor an exception. -/
theorem C10_unknown_type_passthrough (astz : PyDatetime → String → PyDatetime)
    (tz : Option String) (v data_type : String)
    (h1 : v ≠ "unknown") (h2 : v ≠ "unavailable")
    (h3 : data_type ∉ (["numeric", "datetime", "str", "string",
                        "bool", "boolean", "int", "integer"] : List String)) :
    convert_value astz tz (some v) data_type = Except.ok (some (PyObj.str v)) := by
  simp only [List.mem_cons, List.mem_singleton, not_or] at h3
  obtain ⟨hn, hd, hs1, hs2, hb1, hb2, hi1, hi2⟩ := h3
  simp [convert_value, convert_value_try, h1, h2, hn, hd, hs1, hs2, hb1, hb2, hi1, hi2]

theorem C10_witness :
    ("hello" : String) ≠ "unknown"
    ∧ ("hello" : String) ≠ "unavailable"
    ∧ ("mystery" : String) ∉ (["numeric", "datetime", "str", "string",
                               "bool", "boolean", "int", "integer"] : List String)
    ∧ convert_value astzId none (some "hello") "mystery"
        = Except.ok (some (PyObj.str "hello")) :=
  ⟨by decide, by decide, by decide,
    C10_unknown_type_passthrough astzId none "hello" "mystery"
      (by decide) (by decide) (by decide)⟩
